import Mathlib

/-
  Verification of src/addon/mixins/content-editable.js, the content-editable
  mixin of the canvas-editor repository.  The mixin translates DOM events
  (keydown, paste, input) on one editable block into structural operations on
  the block tree, reported to the enclosing editor through host callbacks.

  The embedding models one BlockEditSession: the component state visible to
  the handlers (block content, the render-suppression guard, the selection
  provider fields, the element geometry and the text split around the
  selection), and each handler as a pure function returning the new state
  together with a log of its observable effects (host callbacks, DOM writes
  performed by the render observer, text insertions, whether the default
  action was prevented and propagation stopped).  A JavaScript TypeError is
  modelled as Except.error.

  Ember observers of that era fire synchronously on set, so writing
  block.content immediately runs the renderBlockContent observer body; the
  model runs it at every content write and records the DOM writes it makes.
-/

namespace CanvasEditor

/-- A client rectangle; only the vertical coordinates are used by the code. -/
structure Rect where
  top : Int
  bottom : Int
deriving DecidableEq, Repr

/-- The block model: current content and the previous content snapshot. -/
structure Block where
  content : String
  lastContent : String
deriving DecidableEq, Repr

/-- The result of TextManipulation.getManipulation(element). -/
structure TextSplit where
  textBeforeSelection : String
  textAfterSelection : String
deriving DecidableEq, Repr

/-- The state a handler can observe: the block, the isUpdatingBlockContent
guard, the selection provider (isCollapsed, currentRangeRect — absent when
the provider reports no selection rectangle), the first and last client
rectangles of the element, and the text split around the selection. -/
structure EditorState where
  block : Block
  isUpdatingBlockContent : Bool
  selectionIsCollapsed : Bool
  currentRangeRect : Option Rect
  firstLineRect : Rect
  lastLineRect : Rect
  manipulation : TextSplit
deriving DecidableEq, Repr

/-- Callbacks invoked on the NavigationHost. -/
inductive HostCall where
  | onBlockDeletedLocally : Block → String → HostCall
  | onNavigateLeft : Block → HostCall
  | onNavigateRight : Block → HostCall
  | onNavigateUp : Block → Rect → HostCall
  | onNavigateDown : Block → Rect → HostCall
  | blockContentUpdatedLocally : HostCall
  | newBlockInsertedLocally : String → HostCall
deriving DecidableEq, Repr

/-- DOM writes performed by the renderBlockContent observer:
this.$().text(content) or this.$().html of the br placeholder. -/
inductive DomWrite where
  | setText : String → DomWrite
  | setHtmlBr : DomWrite
deriving DecidableEq, Repr

/-- One observable effect of a handler, in temporal order. -/
inductive Effect where
  | host : HostCall → Effect
  | dom : DomWrite → Effect
  | insertText : String → Effect
deriving DecidableEq, Repr

/-- The effect log of one handler run. -/
structure EffectLog where
  trace : List Effect
  defaultPrevented : Bool
  propagationStopped : Bool
deriving DecidableEq, Repr

/-- The log of a handler that took the no-op branch. -/
def emptyLog : EffectLog := ⟨[], false, false⟩

/-- The host callbacks appearing in a log, in order. -/
def hostCallsOf (log : EffectLog) : List HostCall :=
  log.trace.filterMap fun e =>
    match e with
    | Effect.host c => some c
    | _ => none

/-- The DOM writes of the render observer appearing in a log, in order. -/
def domWritesOf (log : EffectLog) : List DomWrite :=
  log.trace.filterMap fun e =>
    match e with
    | Effect.dom w => some w
    | _ => none

/-- The texts inserted via execCommand insertText appearing in a log. -/
def insertedTexts (log : EffectLog) : List String :=
  log.trace.filterMap fun e =>
    match e with
    | Effect.insertText t => some t
    | _ => none

/-- The log of a run that may have raised a fault; a faulted run made no
observable effects before raising (the raise happens before any effect in the
handlers modelled here). -/
def logOf (r : Except String (EditorState × EffectLog)) : EffectLog :=
  match r with
  | Except.ok p => p.2
  | Except.error _ => emptyLog

/-- Body of the renderBlockContent observer: skip when the guard is held,
else write the text when content is truthy, the br placeholder otherwise. -/
def renderBlockContentEffects (s : EditorState) : List Effect :=
  if s.isUpdatingBlockContent then []
  else if s.block.content ≠ "" then [Effect.dom (DomWrite.setText s.block.content)]
  else [Effect.dom DomWrite.setHtmlBr]

/-- this.set of block.content: the write plus the synchronous run of the
renderBlockContent observer against the updated state. -/
def setBlockContent (s : EditorState) (c : String) : EditorState × List Effect :=
  let s2 := { s with block := { s.block with content := c } }
  (s2, renderBlockContentEffects s2)

/-- setBlockContentFromInput(content, preventRerender): optionally raise the
guard, snapshot content into lastContent, write the new content (firing the
render observer), optionally drop the guard, then notify the host. -/
def setBlockContentFromInput (s : EditorState) (content : String)
    (preventRerender : Bool) : EditorState × EffectLog :=
  let s1 := if preventRerender then { s with isUpdatingBlockContent := true } else s
  let s2 := { s1 with block := { s1.block with lastContent := s1.block.content } }
  let p := setBlockContent s2 content
  let s4 := if preventRerender then { p.1 with isUpdatingBlockContent := false } else p.1
  (s4, ⟨p.2 ++ [Effect.host HostCall.blockContentUpdatedLocally], false, false⟩)

/-- backspace(evt): no-op when text precedes the selection or the selection
is not collapsed; otherwise suppress the default and delete the block
locally, passing the text after the selection. -/
def backspace (s : EditorState) : EditorState × EffectLog :=
  if s.manipulation.textBeforeSelection ≠ "" ∨ s.selectionIsCollapsed = false then
    (s, emptyLog)
  else
    (s, ⟨[Effect.host (HostCall.onBlockDeletedLocally s.block
            s.manipulation.textAfterSelection)], true, true⟩)

/-- navigateLeft(evt): no-op when text precedes the selection; otherwise
suppress the default and move to the previous block. -/
def navigateLeft (s : EditorState) : EditorState × EffectLog :=
  if s.manipulation.textBeforeSelection ≠ "" then (s, emptyLog)
  else (s, ⟨[Effect.host (HostCall.onNavigateLeft s.block)], true, true⟩)

/-- navigateRight(evt): no-op when text follows the selection; otherwise
suppress the default and move to the next block. -/
def navigateRight (s : EditorState) : EditorState × EffectLog :=
  if s.manipulation.textAfterSelection ≠ "" then (s, emptyLog)
  else (s, ⟨[Effect.host (HostCall.onNavigateRight s.block)], true, true⟩)

/-- navigateUp(evt): reads currentRangeRect.top; when the rect is absent the
property read raises a TypeError.  Otherwise compare the distance from the
first-line top against the 10px threshold. -/
def navigateUp (s : EditorState) : Except String (EditorState × EffectLog) :=
  let contentTop := s.firstLineRect.top
  match s.currentRangeRect with
  | none => Except.error "TypeError: cannot read property top of undefined"
  | some rangeRect =>
    if rangeRect.top - contentTop > 10 then Except.ok (s, emptyLog)
    else Except.ok (s, ⟨[Effect.host (HostCall.onNavigateUp s.block rangeRect)],
      true, true⟩)

/-- navigateDown(evt): reads currentRangeRect.bottom; when the rect is absent
the property read raises a TypeError.  Otherwise compare the distance from
the last-line bottom against the 10px threshold. -/
def navigateDown (s : EditorState) : Except String (EditorState × EffectLog) :=
  let contentBottom := s.lastLineRect.bottom
  match s.currentRangeRect with
  | none => Except.error "TypeError: cannot read property bottom of undefined"
  | some rangeRect =>
    if contentBottom - rangeRect.bottom > 10 then Except.ok (s, emptyLog)
    else Except.ok (s, ⟨[Effect.host (HostCall.onNavigateDown s.block rangeRect)],
      true, true⟩)

/-- newBlockAtSplit(): write textBeforeSelection as this block content with
preventRerender = false, then insert a new block seeded with
textAfterSelection. -/
def newBlockAtSplit (s : EditorState) : EditorState × EffectLog :=
  let p := setBlockContentFromInput s s.manipulation.textBeforeSelection false
  (p.1, ⟨p.2.trace ++ [Effect.host (HostCall.newBlockInsertedLocally
      s.manipulation.textAfterSelection)],
    p.2.defaultPrevented, p.2.propagationStopped⟩)

/-- The logical key decoded from evt.key or the legacy numeric keyCode. -/
inductive Key where
  | arrowLeft | arrowUp | arrowRight | arrowDown | backspaceKey | enter | other
deriving DecidableEq, Repr

/-- A keydown event as observed by the dispatch switch. -/
structure KeyEvent where
  key : Key
  shiftKey : Bool
deriving DecidableEq, Repr

/-- keyDown(evt): the dispatch switch.  Shift+Enter returns before any
effect; plain Enter stops propagation, prevents default and splits. -/
def keyDown (s : EditorState) (evt : KeyEvent) :
    Except String (EditorState × EffectLog) :=
  match evt.key with
  | Key.arrowLeft => Except.ok (navigateLeft s)
  | Key.arrowUp => navigateUp s
  | Key.arrowRight => Except.ok (navigateRight s)
  | Key.arrowDown => navigateDown s
  | Key.backspaceKey => Except.ok (backspace s)
  | Key.enter =>
    if evt.shiftKey then Except.ok (s, emptyLog)
    else
      let p := newBlockAtSplit s
      Except.ok (p.1, ⟨p.2.trace, true, true⟩)
  | Key.other => Except.ok (s, emptyLog)

/-- Clipboard data: the text/plain and text/html payloads (empty string for
an absent entry, matching getData of the DOM clipboard API). -/
structure ClipboardData where
  plain : String
  html : String
deriving DecidableEq, Repr

/-- clipboardData.getData(mime). -/
def getData (cd : ClipboardData) (mime : String) : String :=
  if mime = "text/plain" then cd.plain
  else if mime = "text/html" then cd.html
  else ""

/-- paste(evt): prevent the default, read only the text/plain payload and
insert it via execCommand insertText. -/
def paste (s : EditorState) (cd : ClipboardData) : EditorState × EffectLog :=
  (s, ⟨[Effect.insertText (getData cd "text/plain")], true, false⟩)

/-- A DOM child node, identified by its nodeName. -/
structure DomNode where
  nodeName : String
deriving DecidableEq, Repr

/-- The editable element as read by getElementText: its child nodes, its
innerText and its textContent (empty string models an absent innerText). -/
structure DomElement where
  childNodes : List DomNode
  innerText : String
  textContent : String
deriving DecidableEq, Repr

/-- nodeName of element.firstChild (empty when there is no child). -/
def firstChildName (e : DomElement) : String :=
  (e.childNodes.headD ⟨""⟩).nodeName

/-- childNodes.length === 1 and firstChild.nodeName === BR. -/
def singleBrChild (e : DomElement) : Bool :=
  e.childNodes.length == 1 && firstChildName e == "BR"

/-- element.innerText with fallback to element.textContent when innerText is
falsy. -/
def renderedText (e : DomElement) : String :=
  if e.innerText ≠ "" then e.innerText else e.textContent

/-- text.replace of one trailing newline with the empty string: when the
last character is a newline, drop it; otherwise the text is unchanged. -/
def stripTrailingNewline (t : String) : String :=
  match t.data.getLast? with
  | some c => if c = '\n' then ⟨t.data.dropLast⟩ else t
  | none => t

/-- getElementText(): empty for the single-br placeholder element, else the
rendered text, with one trailing newline stripped on Firefox only. -/
def getElementText (isFirefox : Bool) (e : DomElement) : String :=
  if singleBrChild e then ""
  else
    let text := renderedText e
    if isFirefox then stripTrailingNewline text else text

/-- A sample state used to instantiate theorems with hypotheses. -/
def sampleState : EditorState :=
  { block := { content := "ab", lastContent := "" }
    isUpdatingBlockContent := false
    selectionIsCollapsed := true
    currentRangeRect := some { top := 5, bottom := 15 }
    firstLineRect := { top := 0, bottom := 20 }
    lastLineRect := { top := 0, bottom := 20 }
    manipulation := { textBeforeSelection := "a", textAfterSelection := "b" } }

/-- Claim C1: for every ArrowUp or ArrowDown keydown with no current
selection rectangle, the spec requires a no-op without fault; the code
instead dereferences the absent rectangle, so the handler raises a
TypeError (modelled as Except.error) before invoking any callback or
suppressing the default. -/
theorem navigate_missing_rect_faults (s : EditorState) (sh : Bool)
    (h : s.currentRangeRect = none) :
    (∃ msg, keyDown s ⟨Key.arrowUp, sh⟩ = Except.error msg) ∧
    (∃ msg, keyDown s ⟨Key.arrowDown, sh⟩ = Except.error msg) := by
  constructor
  · exact ⟨"TypeError: cannot read property top of undefined",
      by simp [keyDown, navigateUp, h]⟩
  · exact ⟨"TypeError: cannot read property bottom of undefined",
      by simp [keyDown, navigateDown, h]⟩

/-- Witness for C1 at a concrete state whose selection rectangle is absent. -/
theorem navigate_missing_rect_faults_witness :
    (∃ msg, keyDown { sampleState with currentRangeRect := none }
      ⟨Key.arrowUp, false⟩ = Except.error msg) ∧
    (∃ msg, keyDown { sampleState with currentRangeRect := none }
      ⟨Key.arrowDown, false⟩ = Except.error msg) :=
  navigate_missing_rect_faults { sampleState with currentRangeRect := none }
    false rfl

/-- Claim C4: a Backspace keydown invokes onBlockDeletedLocally — exactly
once, with the current block and textAfterSelection, suppressing the default —
iff textBeforeSelection is empty and the selection is collapsed; in every
other state no callback is invoked and the default proceeds. -/
theorem backspace_keydown_contract (s : EditorState) (sh : Bool) :
    keyDown s ⟨Key.backspaceKey, sh⟩ =
      Except.ok (s,
        if s.manipulation.textBeforeSelection = "" ∧ s.selectionIsCollapsed = true
        then ⟨[Effect.host (HostCall.onBlockDeletedLocally s.block
                s.manipulation.textAfterSelection)], true, true⟩
        else emptyLog) := by
  by_cases h1 : s.manipulation.textBeforeSelection = "" <;>
    by_cases h2 : s.selectionIsCollapsed <;>
      simp [keyDown, backspace, h1, h2]

/-- Claim C6: an ArrowLeft keydown invokes onNavigateLeft exactly once with
the default suppressed iff textBeforeSelection is empty; an ArrowRight
keydown invokes onNavigateRight exactly once with the default suppressed iff
textAfterSelection is empty. -/
theorem arrow_horizontal_contract (s : EditorState) (sh : Bool) :
    keyDown s ⟨Key.arrowLeft, sh⟩ =
      Except.ok (s,
        if s.manipulation.textBeforeSelection = ""
        then ⟨[Effect.host (HostCall.onNavigateLeft s.block)], true, true⟩
        else emptyLog) ∧
    keyDown s ⟨Key.arrowRight, sh⟩ =
      Except.ok (s,
        if s.manipulation.textAfterSelection = ""
        then ⟨[Effect.host (HostCall.onNavigateRight s.block)], true, true⟩
        else emptyLog) := by
  constructor
  · by_cases h1 : s.manipulation.textBeforeSelection = "" <;>
      simp [keyDown, navigateLeft, h1]
  · by_cases h1 : s.manipulation.textAfterSelection = "" <;>
      simp [keyDown, navigateRight, h1]

/-- Claim C7: setBlockContentFromInput with preventRerender = true never
lets the render-reconciliation path write to the DOM: the render observer
fired by the content write observes the guard set and emits no DOM write. -/
theorem preventRerender_suppresses_render (s : EditorState) (c : String) :
    domWritesOf (setBlockContentFromInput s c true).2 = [] := by
  simp [setBlockContentFromInput, setBlockContent, renderBlockContentEffects,
    domWritesOf]

/-- Claim C8: the text inserted by a paste equals the text/plain payload and
depends only on it — two clipboards with equal text/plain entries yield
identical paste results whatever their text/html entries — and nothing but
that plain text is ever inserted. -/
theorem paste_plain_only (s : EditorState) (p h1 h2 : String) :
    insertedTexts (paste s ⟨p, h1⟩).2 = [p] ∧
    paste s ⟨p, h1⟩ = paste s ⟨p, h2⟩ := by
  constructor
  · simp [paste, getData, insertedTexts]
  · simp [paste, getData]

/-- Claim C5: with a selection rectangle present, an ArrowUp keydown
suppresses the default and invokes onNavigateUp with the current block and
that rectangle iff the distance from the rectangle top to the first-line top
is at most 10; symmetrically ArrowDown uses the distance from the last-line
bottom to the rectangle bottom. -/
theorem arrow_vertical_threshold (s : EditorState) (sh : Bool) (r : Rect)
    (h : s.currentRangeRect = some r) :
    keyDown s ⟨Key.arrowUp, sh⟩ =
      Except.ok (s,
        if r.top - s.firstLineRect.top ≤ 10
        then ⟨[Effect.host (HostCall.onNavigateUp s.block r)], true, true⟩
        else emptyLog) ∧
    keyDown s ⟨Key.arrowDown, sh⟩ =
      Except.ok (s,
        if s.lastLineRect.bottom - r.bottom ≤ 10
        then ⟨[Effect.host (HostCall.onNavigateDown s.block r)], true, true⟩
        else emptyLog) := by
  constructor
  · simp only [keyDown, navigateUp, h]
    by_cases hc : r.top - s.firstLineRect.top ≤ 10
    · rw [if_neg (by omega), if_pos hc]
    · rw [if_pos (by omega), if_neg hc]
  · simp only [keyDown, navigateDown, h]
    by_cases hc : s.lastLineRect.bottom - r.bottom ≤ 10
    · rw [if_neg (by omega), if_pos hc]
    · rw [if_pos (by omega), if_neg hc]

/-- A state whose caret rectangle sits at signed distance d below the
first-line top (the first line spans tops 0 to 20). -/
def caretAtDistance (d : Int) : EditorState :=
  { sampleState with currentRangeRect := some ⟨d, d + 10⟩, firstLineRect := ⟨0, 20⟩ }

/-- Witness for C5 at the boundary: a distance of 9 from the first-line top
triggers navigation, a distance of 11 does not. -/
theorem arrow_vertical_threshold_witness :
    keyDown (caretAtDistance 9) ⟨Key.arrowUp, false⟩ =
      Except.ok (caretAtDistance 9,
        ⟨[Effect.host (HostCall.onNavigateUp sampleState.block ⟨9, 19⟩)],
          true, true⟩) ∧
    keyDown (caretAtDistance 11) ⟨Key.arrowUp, false⟩ =
      Except.ok (caretAtDistance 11, emptyLog) := by
  constructor
  · rw [(arrow_vertical_threshold (caretAtDistance 9) false ⟨9, 19⟩ rfl).1]
    norm_num [caretAtDistance, sampleState]
  · rw [(arrow_vertical_threshold (caretAtDistance 11) false ⟨11, 21⟩ rfl).1]
    norm_num [caretAtDistance, sampleState]

/-- Claim C9: getElementText returns the empty string for an element whose
only child is a single BR placeholder; for every other element it returns
the rendered text, with one trailing newline stripped exactly on the
browsers (Firefox) known to append one. -/
theorem getElementText_contract (ff : Bool) (e : DomElement) :
    (singleBrChild e = true → getElementText ff e = "") ∧
    (singleBrChild e = false →
      getElementText ff e =
        if ff then stripTrailingNewline (renderedText e) else renderedText e) := by
  constructor
  · intro h
    simp [getElementText, h]
  · intro h
    simp [getElementText, h]

/-- Witness for C9: the single-br element reads back empty, and a non-empty
element on Firefox reads back its text with the trailing newline stripped. -/
theorem getElementText_contract_witness :
    getElementText true ⟨[⟨"BR"⟩], "", ""⟩ = "" ∧
    getElementText true ⟨[⟨"#text"⟩, ⟨"#text"⟩], "hi\n", ""⟩ = "hi" := by
  constructor
  · exact (getElementText_contract true ⟨[⟨"BR"⟩], "", ""⟩).1 rfl
  · rw [(getElementText_contract true ⟨[⟨"#text"⟩, ⟨"#text"⟩], "hi\n", ""⟩).2 rfl]
    decide

/-- Claim C2 counterexample: at a concrete state (guard down, text "a"
before and "b" after the selection), the Enter-without-Shift keydown does
execute the render-reconciliation path as a consequence of the split content
write — the run performs the DOM write of textBeforeSelection — refuting the
claim that renderBlockContent is not executed there. -/
theorem enter_split_renders_counterexample :
    domWritesOf (logOf (keyDown sampleState ⟨Key.enter, false⟩)) =
      [DomWrite.setText "a"] ∧
    domWritesOf (logOf (keyDown sampleState ⟨Key.enter, false⟩)) ≠ [] := by
  constructor
  · decide
  · decide

/-- Claim C2 amended: for every Enter keydown without Shift (from a state
where the guard is down, as it is between events), the split content write is
made with preventRerender = false, so the guard is not held and the render
path does execute on the current block — writing textBeforeSelection (or the
br placeholder when it is empty) — before newBlockInsertedLocally. -/
theorem enter_split_render_runs (s : EditorState)
    (h : s.isUpdatingBlockContent = false) :
    (logOf (keyDown s ⟨Key.enter, false⟩)).trace =
      [Effect.dom (if s.manipulation.textBeforeSelection ≠ ""
          then DomWrite.setText s.manipulation.textBeforeSelection
          else DomWrite.setHtmlBr),
        Effect.host HostCall.blockContentUpdatedLocally,
        Effect.host (HostCall.newBlockInsertedLocally
          s.manipulation.textAfterSelection)] := by
  simp only [keyDown, newBlockAtSplit, setBlockContentFromInput, setBlockContent,
    renderBlockContentEffects, logOf]
  simp [h]
  split <;> simp

/-- Witness for C2 at the concrete state of the counterexample. -/
theorem enter_split_render_runs_witness :
    (logOf (keyDown sampleState ⟨Key.enter, false⟩)).trace =
      [Effect.dom (DomWrite.setText "a"),
        Effect.host HostCall.blockContentUpdatedLocally,
        Effect.host (HostCall.newBlockInsertedLocally "b")] := by
  rw [enter_split_render_runs sampleState rfl]
  decide

/-- Claim C3: an Enter keydown without Shift suppresses the default, makes
the block content exactly textBeforeSelection, and its host callbacks are
the local content-update notification followed by exactly one
newBlockInsertedLocally with textAfterSelection; an Enter keydown with Shift
leaves the state unchanged, suppresses nothing and invokes no callback. -/
theorem enter_keydown_contract (s : EditorState) :
    (∃ s2 log, keyDown s ⟨Key.enter, false⟩ = Except.ok (s2, log) ∧
      log.defaultPrevented = true ∧
      s2.block.content = s.manipulation.textBeforeSelection ∧
      hostCallsOf log = [HostCall.blockContentUpdatedLocally,
        HostCall.newBlockInsertedLocally s.manipulation.textAfterSelection]) ∧
    keyDown s ⟨Key.enter, true⟩ = Except.ok (s, emptyLog) := by
  constructor
  · refine ⟨(newBlockAtSplit s).1, ⟨(newBlockAtSplit s).2.trace, true, true⟩,
      rfl, rfl, ?_, ?_⟩
    · simp [newBlockAtSplit, setBlockContentFromInput, setBlockContent]
    · simp only [newBlockAtSplit, setBlockContentFromInput, setBlockContent,
        renderBlockContentEffects, hostCallsOf]
      split <;> simp
      split <;> simp
  · simp [keyDown]

/-- Claim C10: every setBlockContentFromInput call (from a state where the
guard is down, as it is between events) returns with the guard down, copies
the previous content into lastContent before overwriting content, and emits
the blockContentUpdatedLocally notification exactly once, as the last effect,
after the guard has been released. -/
theorem setBlockContentFromInput_contract (s : EditorState) (c : String)
    (pr : Bool) (h : s.isUpdatingBlockContent = false) :
    (setBlockContentFromInput s c pr).1.isUpdatingBlockContent = false ∧
    (setBlockContentFromInput s c pr).1.block.lastContent = s.block.content ∧
    (setBlockContentFromInput s c pr).1.block.content = c ∧
    hostCallsOf (setBlockContentFromInput s c pr).2 =
      [HostCall.blockContentUpdatedLocally] ∧
    (setBlockContentFromInput s c pr).2.trace.getLast? =
      some (Effect.host HostCall.blockContentUpdatedLocally) := by
  cases pr
  · simp only [setBlockContentFromInput, setBlockContent,
      renderBlockContentEffects, hostCallsOf]
    simp [h, List.getLast?_concat]
    split <;> simp
  · simp only [setBlockContentFromInput, setBlockContent,
      renderBlockContentEffects, hostCallsOf]
    simp [h]

/-- Witness for C10 at a concrete state and content, preventRerender false. -/
theorem setBlockContentFromInput_contract_witness :
    (setBlockContentFromInput sampleState "xy" false).1.isUpdatingBlockContent
      = false ∧
    (setBlockContentFromInput sampleState "xy" false).1.block.lastContent
      = sampleState.block.content ∧
    (setBlockContentFromInput sampleState "xy" false).1.block.content = "xy" ∧
    hostCallsOf (setBlockContentFromInput sampleState "xy" false).2 =
      [HostCall.blockContentUpdatedLocally] ∧
    (setBlockContentFromInput sampleState "xy" false).2.trace.getLast? =
      some (Effect.host HostCall.blockContentUpdatedLocally) :=
  setBlockContentFromInput_contract sampleState "xy" false rfl

end CanvasEditor
